import Mathlib

/-!
Verification of the windowing and hyper-parameter-search core of the
AI4Water/dl4seq repository, shallowly embedded in Lean.

Embedded code:
* `make_3d_batches` from `dl4seq/utils/utils.py` (the spec's `WindowBuilder`):
  slicing a 2-D table into supervised-learning examples.
* the dimension classes `Real`/`Integer` (with the shared `Counter` mixin and
  the `grid` property) and the `HyperOpt` driver pieces `num_iterations`,
  `random_state`, `eval_sequence`, `best_paras`, `grid_search`, `random_search`
  from `dl4seq/hyper_opt.py`.

Numeric conventions: the arrays involved in the claims hold small integers,
which float32/float64 represent exactly, so matrix entries are embedded as `ℤ`
(and float bounds of `Real` dimensions as `ℚ`).  Python `int`s are `Int`/`Nat`.
-/

set_option autoImplicit false

namespace AI4Water

/-! ## Python slice semantics (positive step)

`xs[st:en:step]` for a (possibly negative) start/stop and a positive step:
a negative index is first shifted by `len`, then clamped into `[0, len]`;
the selected indices are `s, s+step, ...` below the normalized stop. -/

/-- Normalize a Python slice bound against a length: negative bounds count
from the end, and the result is clamped into `[0, len]`. -/
def pyIdx (len : Nat) (i : Int) : Nat :=
  if i < 0 then ((len : Int) + i).toNat else min i.toNat len

/-- The list of indices selected by the Python slice `[st:en:step]` on a
sequence of length `len` (for a positive `step`). -/
def pySliceIdx (len : Nat) (st en : Int) (step : Nat) : List Nat :=
  let s := pyIdx len st
  let e := pyIdx len en
  (List.range ((e - s + (step - 1)) / step)).map (fun k => s + k * step)

/-- Python slicing `xs[st:en:step]` with positive `step`. -/
def pySlice {α : Type} (xs : List α) (st en : Int) (step : Nat) : List α :=
  (pySliceIdx xs.length st en step).filterMap (fun j => xs[j]?)

/-- `numpy` transpose of a rectangular matrix given as a list of rows. -/
def transposeRect (m : List (List ℤ)) : List (List ℤ) :=
  (List.range (m.headD []).length).map (fun c => m.map (fun row => row.getD c 0))

/-- The three stacked arrays returned by `make_3d_batches`. -/
structure Batches where
  x : List (List (List ℤ))
  prev_y : List (List (List ℤ))
  y : List (List (List ℤ))
  deriving DecidableEq, Repr

/-- `make_3d_batches(data, lookback_steps, num_outputs=num_outputs,
input_steps=..., forecast_step=..., forecast_len=...)` from
`dl4seq/utils/utils.py`, on the path where `num_outputs` is given and
`num_inputs` is inferred as `features - num_outputs` (so the assertion
`num_inputs + num_outputs == features` holds by construction).
`data` is the 2-D array as a list of rows.  Python raises `ValueError` when
`len(data) <= 1`; when the loop range is empty the trailing `np.stack(x)`
raises `ValueError` ("need at least one array to stack"); a zero
`input_steps` would make the first slice raise `ValueError`. -/
def make_3d_batches (data : List (List ℤ)) (lookback_steps : Nat)
    (num_outputs : Nat) (input_steps : Nat) (forecast_step : Nat)
    (forecast_len : Nat) : Except String Batches :=
  let features : Nat := (data.headD []).length
  let colSplit : Int := (features : Int) - (num_outputs : Int)
  if data.length ≤ 1 then
    .error "ValueError: can not create batches from data"
  else
    let samples : Int := (data.length : Int)
    let count : Int := samples - lookback_steps * input_steps + 1
      - forecast_step - forecast_len + 1
    let n : Nat := count.toNat
    if n = 0 then
      .error "ValueError: need at least one array to stack"
    else if input_steps = 0 then
      .error "ValueError: slice step cannot be zero"
    else
      let xs := (List.range n).map (fun (i : Nat) =>
        (pySlice data (i : Int) ((i : Int) + (lookback_steps : Int) * (input_steps : Int))
            input_steps).map
          (fun row => pySlice row 0 colSplit 1))
      let prevYs := (List.range n).map (fun (i : Nat) =>
        (pySlice data (i : Int) ((i : Int) + ((lookback_steps : Int) - 1) * (input_steps : Int))
            input_steps).map
          (fun row => pySlice row colSplit row.length 1))
      let ys := (List.range n).map (fun (i : Nat) =>
        let sty : Int := (i : Int) + (lookback_steps : Int) * (input_steps : Int)
          + (forecast_step : Int) - (input_steps : Int)
        transposeRect ((pySlice data sty (sty + (forecast_len : Int)) 1).map
          (fun row => pySlice row colSplit row.length 1)))
      .ok ⟨xs, prevYs, ys⟩

/-- The docstring example data of `make_3d_batches`:
`np.arange(250).reshape(-1, 50).transpose()`, i.e. 50 rows and 5 columns
with entry `(i, k) = k*50 + i` (column `k` is `arange(k*50, (k+1)*50)`). -/
def data50 : List (List ℤ) :=
  (List.range 50).map (fun i => (List.range 5).map (fun k => ((k * 50 + i : Nat) : ℤ)))

/-! ## Dimension classes from `dl4seq/hyper_opt.py`

`class Counter: counter = 0` is a mixin of `Real` and `Integer`.  Inside
`__init__`, `self.counter += 1` reads the *class* attribute (the instance has
none yet) and assigns the result to an *instance* attribute, so the class
attribute itself is never changed.  The model passes the class-attribute value
around explicitly to capture exactly that semantics. -/

/-- The value of the class attribute `Counter.counter` (shared by the `Real`
and `Integer` classes through the `Counter` mixin). -/
structure PyCounterClass where
  counter : Int
  deriving DecidableEq, Repr

/-- The class attribute starts at `Counter.counter = 0`. -/
def counterInit : PyCounterClass := ⟨0⟩

/-- `np.linspace(low, high, num)` over exact rationals
(`num = 0` gives an empty array, `num = 1` gives `[low]`). -/
def npLinspace (low high : ℚ) (num : Nat) : List ℚ :=
  if num = 0 then []
  else if num = 1 then [low]
  else (List.range num).map (fun i => low + i * (high - low) / ((num : ℚ) - 1))

/-- C-style cast of a real value to an integer dtype: truncation toward 0. -/
def truncInt (q : ℚ) : ℤ :=
  if q < 0 then ⌈q⌉ else ⌊q⌋

/-- `np.linspace(low, high, num, dtype=np.int32)`: the float linspace values
cast (truncated) to integers.  The bounds in the claims are far inside the
int32 range, so 32-bit wrap-around is not modelled. -/
def npLinspaceInt (low high : ℤ) (num : Nat) : List ℤ :=
  (npLinspace (low : ℚ) (high : ℚ) num).map truncInt

/-- `np.arange(low, high, step)` over exact rationals (positive or negative
nonzero step): `⌈(high-low)/step⌉` entries `low + i*step`. -/
def npArange (low high step : ℚ) : List ℚ :=
  (List.range (⌈(high - low) / step⌉).toNat).map (fun i => low + i * step)

/-- `np.arange(low, high, step, dtype=np.int32)` for integer arguments. -/
def npArangeInt (low high step : ℤ) : List ℤ :=
  (npArange (low : ℚ) (high : ℚ) (step : ℚ)).map truncInt

/-- The `@grid.setter` of the custom `Real` class: `self.grid = grid` at the
end of `__init__` stores `np.array(x)` when an explicit grid `x` is passed;
otherwise it derives the grid from `num_samples` (`if self.num_samples:`,
so `None` and `0` are both falsy) or else from `step`; otherwise it assigns
nothing, leaving the `_grid` attribute unset (`none` here — reading the
`grid` property then raises `AttributeError`). -/
def RealDim.gridSetter (low high : ℚ) (num_samples : Option Nat)
    (step : Option ℚ) (x : Option (List ℚ)) : Option (List ℚ) :=
  match x with
  | some xs => some xs
  | none =>
    if num_samples.getD 0 ≠ 0 then some (npLinspace low high (num_samples.getD 0))
    else if step.getD 0 ≠ 0 then some (npArange low high (step.getD 0))
    else none

/-- The `@grid.setter` of the custom `Integer` class (same structure as
`RealDim.gridSetter`, but `np.linspace`/`np.arange` get `dtype=np.int32`). -/
def IntegerDim.gridSetter (low high : ℤ) (num_samples : Option Nat)
    (step : Option ℤ) (x : Option (List ℤ)) : Option (List ℤ) :=
  match x with
  | some xs => some xs
  | none =>
    if num_samples.getD 0 ≠ 0 then some (npLinspaceInt low high (num_samples.getD 0))
    else if step.getD 0 ≠ 0 then some (npArangeInt low high (step.getD 0))
    else none

/-- The custom `Real` dimension after `__init__`: its resolved bounds, the
instance attribute `counter` created by `self.counter += 1`, the auto- or
user-assigned `name`, and the `_grid` attribute (`none` when never set). -/
structure RealDim where
  name : String
  counter : Int
  low : ℚ
  high : ℚ
  num_samples : Option Nat
  step : Option ℚ
  _grid : Option (List ℚ)
  deriving DecidableEq, Repr

/-- `Real.__init__`: resolves `low`/`high` from the explicit grid when `low`
is `None` (asserting the grid exists and is sized), performs
`self.counter += 1` (instance attribute = class attribute + 1; the class
attribute is returned unchanged), auto-names the dimension
`f'real_{self.counter}'` when no name is given, and runs the grid setter.
skopt's `Dimension.__init__` raises `ValueError` unless `low < high`. -/
def RealDim.init (cls : PyCounterClass) (low? high? : Option ℚ)
    (num_samples : Option Nat) (step : Option ℚ) (grid : Option (List ℚ))
    (name? : Option String) : Except String (RealDim × PyCounterClass) :=
  let bounds : Except String (ℚ × ℚ) :=
    match low?, grid with
    | none, none => .error "AssertionError: grid is None"
    | none, some [] => .error "IndexError: grid is empty"
    | none, some (g0 :: gs) => .ok (g0, (g0 :: gs).getLast (by simp))
    | some lo, _ =>
      match high? with
      | some hi => .ok (lo, hi)
      | none => .error "ValueError: high is None"
  match bounds with
  | .error e => .error e
  | .ok (lo, hi) =>
    if lo < hi then
      let instCounter := cls.counter + 1
      let nm := name?.getD ("real_" ++ toString instCounter)
      .ok (⟨nm, instCounter, lo, hi, num_samples, step,
            RealDim.gridSetter lo hi num_samples step grid⟩, cls)
    else .error "ValueError: low >= high"

/-- The custom `Integer` dimension after `__init__`. -/
structure IntegerDim where
  name : String
  counter : Int
  low : ℤ
  high : ℤ
  num_samples : Option Nat
  step : Option ℤ
  _grid : Option (List ℤ)
  deriving DecidableEq, Repr

/-- `Integer.__init__`, mirroring `RealDim.init` with the auto-name
`f'integer_{self.counter}'`. -/
def IntegerDim.init (cls : PyCounterClass) (low? high? : Option ℤ)
    (num_samples : Option Nat) (step : Option ℤ) (grid : Option (List ℤ))
    (name? : Option String) : Except String (IntegerDim × PyCounterClass) :=
  let bounds : Except String (ℤ × ℤ) :=
    match low?, grid with
    | none, none => .error "AssertionError: grid is None"
    | none, some [] => .error "IndexError: grid is empty"
    | none, some (g0 :: gs) => .ok (g0, (g0 :: gs).getLast (by simp))
    | some lo, _ =>
      match high? with
      | some hi => .ok (lo, hi)
      | none => .error "ValueError: high is None"
  match bounds with
  | .error e => .error e
  | .ok (lo, hi) =>
    if lo < hi then
      let instCounter := cls.counter + 1
      let nm := name?.getD ("integer_" ++ toString instCounter)
      .ok (⟨nm, instCounter, lo, hi, num_samples, step,
            IntegerDim.gridSetter lo hi num_samples step grid⟩, cls)
    else .error "ValueError: low >= high"

/-! ## The `HyperOpt` driver (non-sklearn `grid`/`random` path)

For `algorithm in {"random", "grid"}` with a non-sklearn objective, the
`param_space` setter turns the dimension list into the dict
`{space.name: space.grid}`; `grid_search` materializes
`list(ParameterGrid(param_space))` and `random_search` materializes
`list(ParameterSampler(param_space, n_iter=num_iterations,
random_state=random_state))`; both hand the list to `eval_sequence`.

A parameter assignment (one entry of those lists) is an association list
`List (String × ℤ)` in the dict's key order.  Objective values are embedded
as Python `int`s (`ℤ`): `round(err, 8)` is then the identity and the f-string
`f'{err}_{idx}'` prints the plain decimal form, which `toString` matches. -/

/-- `self.gpmin_args`: the leftover keyword arguments (iteration counts and
the random seed), as an association list over `Nat` values. -/
def GpminArgs : Type := List (String × Nat)

/-- The `HyperOpt.num_iterations` property: `num_iterations` if present,
else (for `tpe`) `max_evals` defaulting to `sys.maxsize =
9223372036854775807`, else `n_calls` if present, else `n_iter` — a missing
`n_iter` raises `KeyError`. -/
def num_iterations (algorithm : String) (args : GpminArgs) : Except String Nat :=
  match List.lookup "num_iterations" args with
  | some v => .ok v
  | none =>
    if algorithm = "tpe" then
      .ok ((List.lookup "max_evals" args).getD 9223372036854775807)
    else
      match List.lookup "n_calls" args with
      | some v => .ok v
      | none =>
        match List.lookup "n_iter" args with
        | some v => .ok v
        | none => .error "KeyError: n_iter"

/-- The `HyperOpt.random_state` property: `np.random.RandomState(313)` when
no `random_state` argument was given, else `np.random.RandomState(seed)`.
Only the seed is modelled; the generator itself is `lcg` below. -/
def randomState (args : GpminArgs) : Nat :=
  (List.lookup "random_state" args).getD 313

/-- `eval_sequence(params)`: evaluates the objective once on every parameter
assignment, in order, recording each trial in the `results` dict under the
key `f'{err}_{idx}'` (keys are pairwise distinct thanks to the index, so the
dict is faithfully an insertion-ordered association list). -/
def eval_sequence (objective_fn : List (String × ℤ) → ℤ)
    (params : List (List (String × ℤ))) : List (String × List (String × ℤ)) :=
  params.enum.map (fun p => (toString (objective_fn p.2) ++ "_" ++ toString p.1, p.2))

/-- Python's `<` on strings: lexicographic comparison of the code-point
sequences. -/
def pyCharsLt : List Char → List Char → Bool
  | [], [] => false
  | [], _ :: _ => true
  | _ :: _, [] => false
  | a :: as, b :: bs =>
    if a.toNat < b.toNat then true
    else if b.toNat < a.toNat then false
    else pyCharsLt as bs

/-- Python's `a < b` for strings. -/
def pyStrLt (a b : String) : Bool := pyCharsLt a.data b.data

/-- The smallest string of a list under Python's lexicographic string order,
i.e. `list(sorted(keys))[0]`; `none` on the empty list (`IndexError`). -/
def minSortedKey : List String → Option String
  | [] => none
  | k :: ks => some (ks.foldl (fun m s => if pyStrLt s m then s else m) k)

/-- The `HyperOpt.best_paras` property on the non-Bayesian, non-TPE path:
`fun = list(sorted(self.results.keys()))[0]; return self.results[fun]`. -/
def best_paras (results : List (String × List (String × ℤ))) :
    Option (List (String × ℤ)) :=
  match minSortedKey (results.map Prod.fst) with
  | none => none
  | some k => List.lookup k results

/-- Insert an entry into a key-sorted association list (the comparison
`sorted` performs is on the `(key, value)` tuples, but dict keys are
pairwise distinct, so only the key comparison is ever decisive). -/
def insortKey (p : String × List ℤ) :
    List (String × List ℤ) → List (String × List ℤ)
  | [] => [p]
  | q :: qs => if pyStrLt q.1 p.1 then q :: insortKey p qs else p :: q :: qs

/-- `sorted(param_space.items())` as insertion sort by key. -/
def sortItems (l : List (String × List ℤ)) : List (String × List ℤ) :=
  l.foldr insortKey []

/-- `itertools.product(*values)` over the (already sorted) grids, each
combination rebuilt as the dict `dict(zip(keys, prod))`: the first grid
varies slowest and the last fastest, exactly as in
`sklearn.model_selection.ParameterGrid.__iter__`. -/
def gridCombos : List (String × List ℤ) → List (List (String × ℤ))
  | [] => [[]]
  | (k, vs) :: rest =>
    vs.flatMap (fun v => (gridCombos rest).map (fun tail => (k, v) :: tail))

/-- `list(ParameterGrid(space))`: the full Cartesian product of the grids,
with the dimensions sorted by name. -/
def parameterGrid (space : List (String × List ℤ)) : List (List (String × ℤ)) :=
  gridCombos (sortItems space)

/-- `HyperOpt.grid_search`: `params = list(ParameterGrid(self.param_space));
return self.eval_sequence(params)`. -/
def grid_search (space : List (String × List ℤ))
    (objective_fn : List (String × ℤ) → ℤ) : List (String × List (String × ℤ)) :=
  eval_sequence objective_fn (parameterGrid space)

/-- A deterministic pseudo-random generator standing for numpy's
`RandomState` stream (a linear congruential step; the only properties the
claims rely on are that it is a pure function of the seed). -/
def lcg (s : Nat) : Nat := (1103515245 * s + 12345) % 2147483648

/-- Draw from a shrinking pool, one element per step, driven by `lcg`. -/
def swrAux : Nat → List Nat → Nat → List Nat
  | 0, _, _ => []
  | _ + 1, [], _ => []
  | n + 1, p :: pool, st =>
    let i := st % (p :: pool).length
    (p :: pool).getD i 0 :: swrAux n ((p :: pool).eraseIdx i) (lcg st)

/-- `sklearn.utils.random.sample_without_replacement(n_population, n_samples,
random_state)`: a deterministic PRNG-driven selection of `n_samples` distinct
indices out of `range(n_population)`, modelled as a Fisher-Yates style draw
from the index pool. -/
def sampleWithoutReplacement (nPop nSamp seed : Nat) : List Nat :=
  swrAux nSamp (List.range nPop) seed

/-- `list(ParameterSampler(space, n_iter, random_state))` on the all-discrete
path taken here (every grid is a materialized array, nothing has `rvs`):
sklearn materializes `ParameterGrid(space)`, clamps `n_iter` to the grid size
(with a warning), and yields the grid entries at
`sample_without_replacement(grid_size, n_iter)`. -/
def ParameterSampler (space : List (String × List ℤ)) (n_iter : Nat)
    (seed : Nat) : List (List (String × ℤ)) :=
  let grid := parameterGrid space
  let gridSize := grid.length
  let n := min n_iter gridSize
  (sampleWithoutReplacement gridSize n seed).map (fun i => grid.getD i [])

/-- `HyperOpt.random_search`: samples `num_iterations` assignments with
`ParameterSampler` seeded by `random_state`, then runs `eval_sequence`.
A missing iteration count propagates as the `KeyError` of
`num_iterations`. -/
def random_search (space : List (String × List ℤ)) (args : GpminArgs)
    (objective_fn : List (String × ℤ) → ℤ) :
    Except String (List (String × List (String × ℤ))) :=
  match num_iterations "random" args with
  | .error e => .error e
  | .ok n => .ok (eval_sequence objective_fn (ParameterSampler space n (randomState args)))

/-- A concrete objective used in counterexamples: scores the assignment
`x = 0` with 10 and everything else with 2 (Python `int` returns). -/
def objTwoTrials (p : List (String × ℤ)) : ℤ :=
  if p = [("x", 0)] then 10 else 2

/-- A concrete constant objective. -/
def objZero (_ : List (String × ℤ)) : ℤ := 0

/-! ## Helper lemmas about the slice embedding -/

theorem pyIdx_coe (len s : Nat) (h : s ≤ len) : pyIdx len (s : Int) = s := by
  simp [pyIdx, Int.toNat_ofNat, Nat.min_eq_left h]

theorem headD_mem {α : Type} {l : List α} (h : l ≠ []) (d : α) : l.headD d ∈ l := by
  cases l with
  | nil => exact absurd rfl h
  | cons a t => simp [List.headD]

theorem pySliceIdx_eq (len : Nat) (st en : Int) (s m step : Nat)
    (hstep : 0 < step) (hst : st = (s : Int)) (hen : en = st + (m : Int) * (step : Int))
    (hlen : en ≤ (len : Int)) :
    pySliceIdx len st en step = (List.range m).map (fun k => s + k * step) := by
  have hen' : en = ((s + m * step : Nat) : Int) := by rw [hen, hst]; push_cast; ring
  have hsum_le : s + m * step ≤ len := by
    have := hen' ▸ hlen
    exact_mod_cast this
  have hs_le : s ≤ len := by omega
  have he : pyIdx len en = s + m * step := by
    rw [hen']
    exact pyIdx_coe len (s + m * step) hsum_le
  have hs : pyIdx len st = s := by rw [hst, pyIdx_coe _ _ hs_le]
  simp only [pySliceIdx, hs, he]
  have hcount : (s + m * step - s + (step - 1)) / step = m := by
    have h1 : s + m * step - s + (step - 1) = step * m + (step - 1) := by
      rw [Nat.mul_comm]; omega
    rw [h1, Nat.mul_add_div hstep, Nat.div_eq_of_lt (by omega)]
    omega
  rw [hcount]

theorem length_filterMap_getElem {α : Type} (xs : List α) (idxs : List Nat)
    (h : ∀ j ∈ idxs, j < xs.length) :
    (idxs.filterMap (fun j => xs[j]?)).length = idxs.length := by
  induction idxs with
  | nil => simp
  | cons j js ih =>
    have hj : j < xs.length := h j (by simp)
    simp only [List.filterMap_cons, List.getElem?_eq_getElem hj, List.length_cons]
    rw [ih (fun k hk => h k (by simp [hk]))]

/-- The length of a Python slice `[s : s + m*step : step]` entirely inside the
sequence is exactly `m`. -/
theorem pySlice_length {α : Type} (xs : List α) (st en : Int) (s m step : Nat)
    (hstep : 0 < step) (hst : st = (s : Int)) (hen : en = st + (m : Int) * (step : Int))
    (hlen : en ≤ (xs.length : Int)) :
    (pySlice xs st en step).length = m := by
  unfold pySlice
  rw [pySliceIdx_eq xs.length st en s m step hstep hst hen hlen]
  have hen' : en = ((s + m * step : Nat) : Int) := by rw [hen, hst]; push_cast; ring
  have hsum_le : s + m * step ≤ xs.length := by
    have := hen' ▸ hlen
    exact_mod_cast this
  rw [length_filterMap_getElem]
  · simp
  · intro j hj
    simp only [List.mem_map, List.mem_range] at hj
    obtain ⟨k, hk, rfl⟩ := hj
    have hk1 : (k + 1) * step ≤ m * step := Nat.mul_le_mul_right step (by omega)
    have hk2 : (k + 1) * step = k * step + step := by ring
    omega

/-- Every element of a Python slice is an element of the sliced list. -/
theorem pySlice_mem {α : Type} {xs : List α} {st en : Int} {step : Nat} {a : α}
    (h : a ∈ pySlice xs st en step) : a ∈ xs := by
  unfold pySlice at h
  obtain ⟨j, _, hj⟩ := List.mem_filterMap.mp h
  obtain ⟨hlt, hget⟩ := List.getElem?_eq_some.mp hj
  exact hget ▸ List.getElem_mem hlt

/-- Shape of the transpose of a nonempty rectangular matrix. -/
theorem transposeRect_shape (m : List (List ℤ)) (w : Nat)
    (hne : m ≠ []) (hw : ∀ row ∈ m, row.length = w) :
    (transposeRect m).length = w ∧ ∀ r ∈ transposeRect m, r.length = m.length := by
  constructor
  · simp only [transposeRect, List.length_map, List.length_range]
    exact hw _ (headD_mem hne [])
  · intro r hr
    simp only [transposeRect, List.mem_map, List.mem_range] at hr
    obtain ⟨c, _, rfl⟩ := hr
    simp

/-- Full success specification of `make_3d_batches` for a rectangular
`(N, F)` input with valid parameters admitting at least one example:
the example count is `N - L*S + 1 - O - FL + 1` and the stacked arrays have
shapes `(count, L, F - outs)` for `x` and `(count, outs, FL)` for `y`. -/
theorem make_3d_batches_ok_spec (data : List (List ℤ)) (F L outs S O FL : Nat)
    (hrect : ∀ row ∈ data, row.length = F)
    (hL : 1 ≤ L) (hS : 1 ≤ S) (hFL : 1 ≤ FL) (houts : outs ≤ F)
    (hN2 : 2 ≤ data.length)
    (hfit : L * S + O + FL ≤ data.length + 1) :
    ∃ b : Batches, make_3d_batches data L outs S O FL = .ok b ∧
      b.x.length = data.length + 2 - (L * S + O + FL) ∧
      (∀ ex ∈ b.x, ex.length = L ∧ ∀ row ∈ ex, row.length = F - outs) ∧
      b.y.length = data.length + 2 - (L * S + O + FL) ∧
      (∀ ey ∈ b.y, ey.length = outs ∧ ∀ row ∈ ey, row.length = FL) := by
  have hb : ((L * S : Nat) : Int) = (L : Int) * (S : Int) := by push_cast; ring
  have hLS : S ≤ L * S := by
    calc S = 1 * S := (one_mul S).symm
    _ ≤ L * S := Nat.mul_le_mul_right S hL
  have hfeat : (data.headD []).length = F :=
    hrect _ (headD_mem (by intro h; rw [h] at hN2; simp at hN2) [])
  have h1 : ¬ (data.length ≤ 1) := by omega
  have h2 : ¬ (((data.length : Int) - (L : Int) * (S : Int) + 1 - (O : Int)
      - (FL : Int) + 1).toNat = 0) := by omega
  have h3 : ¬ (S = 0) := by omega
  unfold make_3d_batches
  rw [if_neg h1, if_neg h2, if_neg h3]
  refine ⟨_, rfl, ?_, ?_, ?_, ?_⟩
  · rw [List.length_map, List.length_range]
    omega
  · intro ex hex
    simp only [List.mem_map, List.mem_range] at hex
    obtain ⟨i, hi, rfl⟩ := hex
    constructor
    · rw [List.length_map]
      exact pySlice_length data _ _ i L S (by omega) rfl rfl (by omega)
    · intro row hrow
      simp only [List.mem_map] at hrow
      obtain ⟨r, hr, rfl⟩ := hrow
      have hrF : r.length = F := hrect _ (pySlice_mem hr)
      exact pySlice_length r _ _ 0 (F - outs) 1 (by omega) (by omega)
        (by omega) (by omega)
  · rw [List.length_map, List.length_range]
    omega
  · intro ey hey
    simp only [List.mem_map, List.mem_range] at hey
    obtain ⟨i, hi, rfl⟩ := hey
    have hrows : ∀ row ∈ (pySlice data
        ((i : Int) + (L : Int) * (S : Int) + (O : Int) - (S : Int))
        ((i : Int) + (L : Int) * (S : Int) + (O : Int) - (S : Int) + (FL : Int)) 1).map
        (fun row => pySlice row (((data.headD []).length : Int) - (outs : Int)) row.length 1),
        row.length = outs := by
      intro row hrow
      simp only [List.mem_map] at hrow
      obtain ⟨r, hr, rfl⟩ := hrow
      have hrF : r.length = F := hrect _ (pySlice_mem hr)
      exact pySlice_length r _ _ (F - outs) outs 1 (by omega) (by omega)
        (by omega) (by omega)
    have hlenrows : ((pySlice data
        ((i : Int) + (L : Int) * (S : Int) + (O : Int) - (S : Int))
        ((i : Int) + (L : Int) * (S : Int) + (O : Int) - (S : Int) + (FL : Int)) 1).map
        (fun row => pySlice row (((data.headD []).length : Int) - (outs : Int)) row.length 1)).length
        = FL := by
      rw [List.length_map]
      exact pySlice_length data _ _ (i + L * S + O - S) FL 1 (by omega) (by omega)
        (by omega) (by omega)
    have hne : ((pySlice data
        ((i : Int) + (L : Int) * (S : Int) + (O : Int) - (S : Int))
        ((i : Int) + (L : Int) * (S : Int) + (O : Int) - (S : Int) + (FL : Int)) 1).map
        (fun row => pySlice row (((data.headD []).length : Int) - (outs : Int)) row.length 1)) ≠ [] := by
      intro h
      rw [h] at hlenrows
      simp at hlenrows
      omega
    obtain ⟨hA, hB⟩ := transposeRect_shape _ outs hne hrows
    exact ⟨hA, fun r hr => by rw [hB r hr, hlenrows]⟩

/-! ## Claim theorems -/

/-- C1: for every 2-D input of shape `(N, F)` with valid
`numInputs + numOutputs = F`, `lookbackSteps = L`, `inputStepSize = S`,
`forecastStepOffset = O`, `forecastLength = FL` such that at least one
example fits (and the data has the `N ≥ 2` rows the function demands),
`make_3d_batches` returns exactly `N - L*S + 1 - O - FL + 1` examples, with
`X` of shape `(examples, L, F - numOutputs)` and `Y` of shape
`(examples, numOutputs, FL)`. -/
theorem make_3d_batches_count_and_shapes (data : List (List ℤ))
    (F L outs S O FL : Nat)
    (hrect : ∀ row ∈ data, row.length = F)
    (hL : 1 ≤ L) (hS : 1 ≤ S) (hFL : 1 ≤ FL) (houts : outs ≤ F)
    (hN2 : 2 ≤ data.length)
    (hfit : L * S + O + FL ≤ data.length + 1) :
    ∃ b : Batches, make_3d_batches data L outs S O FL = .ok b ∧
      b.x.length = data.length + 2 - (L * S + O + FL) ∧
      (∀ ex ∈ b.x, ex.length = L ∧ ∀ row ∈ ex, row.length = F - outs) ∧
      b.y.length = data.length + 2 - (L * S + O + FL) ∧
      (∀ ey ∈ b.y, ey.length = outs ∧ ∀ row ∈ ey, row.length = FL) :=
  make_3d_batches_ok_spec data F L outs S O FL hrect hL hS hFL houts hN2 hfit

/-- Witness for C1: the docstring data (50 rows, 5 features) with
`outs = 2, L = 4, S = 2, O = 2, FL = 4` yields `50 - 8 + 1 - 2 - 4 + 1 = 38`
examples. -/
theorem make_3d_batches_count_and_shapes_witness :
    ∃ b : Batches, make_3d_batches data50 4 2 2 2 4 = .ok b ∧
      b.x.length = 50 + 2 - (4 * 2 + 2 + 4) :=
  (make_3d_batches_count_and_shapes data50 5 4 2 2 2 4 (by decide) (by omega)
    (by omega) (by omega) (by omega) (by simp [data50]) (by simp [data50])).elim
    (fun b hb => ⟨b, hb.1, by simpa [data50] using hb.2.1⟩)

/-- C2: on the docstring data (5 columns of 50 sequential values,
column `k = arange(k*50, (k+1)*50)`) with `numOutputs = 2, lookbackSteps = 4,
inputStepSize = 2, forecastStepOffset = 2, forecastLength = 4`, the first
example is exactly the matrix pair stated in the docstring. -/
theorem make_3d_batches_docstring_example :
    (make_3d_batches data50 4 2 2 2 4).toOption.map (fun b => (b.x.head?, b.y.head?)) =
      some (some [[0, 50, 100], [2, 52, 102], [4, 54, 104], [6, 56, 106]],
            some [[158, 159, 160, 161], [208, 209, 210, 211]]) := by
  decide

/-- C6: `make_3d_batches` fails on an input with at most one row; it fails
whenever the computed iteration range is empty or negative (the empty
example list cannot be stacked); and on exactly the minimum number of rows
admitting one example it produces exactly one example. -/
theorem make_3d_batches_insufficient_data :
    (∀ (data : List (List ℤ)) (L outs S O FL : Nat), data.length ≤ 1 →
        make_3d_batches data L outs S O FL =
          .error "ValueError: can not create batches from data") ∧
    (∀ (data : List (List ℤ)) (L outs S O FL : Nat), 2 ≤ data.length →
        (data.length : Int) - (L : Int) * (S : Int) + 1 - (O : Int) - (FL : Int) + 1 ≤ 0 →
        make_3d_batches data L outs S O FL =
          .error "ValueError: need at least one array to stack") ∧
    (∀ (data : List (List ℤ)) (F L outs S O FL : Nat),
        (∀ row ∈ data, row.length = F) → 1 ≤ L → 1 ≤ S → 1 ≤ FL → outs ≤ F →
        3 ≤ L * S + O + FL → data.length = L * S + O + FL - 1 →
        ∃ b, make_3d_batches data L outs S O FL = .ok b ∧
          b.x.length = 1 ∧ b.y.length = 1) := by
  refine ⟨?_, ?_, ?_⟩
  · intro data L outs S O FL h
    unfold make_3d_batches
    rw [if_pos h]
  · intro data L outs S O FL h2 hcnt
    unfold make_3d_batches
    rw [if_neg (by omega), if_pos (by omega)]
  · intro data F L outs S O FL hrect hL hS hFL houts hsum hN
    obtain ⟨b, hok, hx, _, hy, _⟩ :=
      make_3d_batches_ok_spec data F L outs S O FL hrect hL hS hFL houts
        (by omega) (by omega)
    exact ⟨b, hok, by omega, by omega⟩

/-- Witness for C6: a one-row input fails; two rows with `L*S = 3` give an
empty range and fail; two rows with `L = 2, S = 1, O = 0, FL = 1` (minimum
`N = 2`) give exactly one example. -/
theorem make_3d_batches_insufficient_data_witness :
    make_3d_batches [[(1 : ℤ), 2]] 1 1 1 0 1 =
      .error "ValueError: can not create batches from data" ∧
    make_3d_batches [[(1 : ℤ)], [2]] 3 0 1 0 1 =
      .error "ValueError: need at least one array to stack" ∧
    ∃ b, make_3d_batches [[(1 : ℤ)], [2]] 2 0 1 0 1 = .ok b ∧
      b.x.length = 1 ∧ b.y.length = 1 :=
  ⟨make_3d_batches_insufficient_data.1 [[(1 : ℤ), 2]] 1 1 1 0 1 (by decide),
   make_3d_batches_insufficient_data.2.1 [[(1 : ℤ)], [2]] 3 0 1 0 1 (by decide) (by decide),
   make_3d_batches_insufficient_data.2.2 [[(1 : ℤ)], [2]] 1 2 0 1 0 1 (by decide)
     (by decide) (by decide) (by decide) (by decide) (by decide) (by decide)⟩

/-- C3 (code bug): with two trials scoring 10 and 2, `eval_sequence` records
the keys `"10_0"` and `"2_1"`, and `best_paras` — which takes the
lexicographically smallest *string* key — returns the parameters of the trial
with score 10, not those of the minimum-score trial (score 2). -/
theorem best_paras_not_min_score :
    eval_sequence objTwoTrials [[("x", 0)], [("x", 1)]] =
      [("10_0", [("x", 0)]), ("2_1", [("x", 1)])] ∧
    best_paras (eval_sequence objTwoTrials [[("x", 0)], [("x", 1)]]) =
      some [("x", 0)] ∧
    objTwoTrials [("x", 1)] < objTwoTrials [("x", 0)] := by
  have h1 : eval_sequence objTwoTrials [[("x", 0)], [("x", 1)]] =
      [("10_0", [("x", 0)]), ("2_1", [("x", 1)])] := by decide
  refine ⟨h1, ?_, by decide⟩
  rw [h1]
  decide

/-- C4 (code bug): `self.counter += 1` creates an *instance* attribute and
leaves the class attribute `Counter.counter` at 0 forever, so every `Real`
dimension constructed without an explicit name is called `"real_1"`: two
unnamed dimensions of the same kind share a name (likewise `"integer_1"`
for `Integer`). -/
theorem unnamed_dimensions_share_name :
    (RealDim.init counterInit (some 1) (some 2) none none none none).toOption.map
        (fun p => (p.1.name, p.2)) = some ("real_1", counterInit) ∧
    (RealDim.init counterInit (some 3) (some 4) none none none none).toOption.map
        (fun p => p.1.name) = some "real_1" ∧
    (IntegerDim.init counterInit (some 1) (some 2) none none none none).toOption.map
        (fun p => (p.1.name, p.2)) = some ("integer_1", counterInit) ∧
    (IntegerDim.init counterInit (some 3) (some 4) none none none none).toOption.map
        (fun p => p.1.name) = some "integer_1" := by
  decide

/-- C5 counterexample: an `Integer` dimension given both `numSamples = 3`
and the explicit grid `[7, 8, 9]` gets the explicit grid, not the
`numSamples`-derived linspace `[0, 5, 10]` the claimed precedence predicts. -/
theorem grid_explicit_beats_num_samples :
    IntegerDim.gridSetter 0 10 (some 3) none (some [7, 8, 9]) = some [7, 8, 9] ∧
    npLinspaceInt 0 10 3 = [0, 5, 10] ∧
    IntegerDim.gridSetter 0 10 (some 3) none (some [7, 8, 9]) ≠
      some (npLinspaceInt 0 10 3) := by
  have h2 : npLinspaceInt 0 10 3 = [0, 5, 10] := by
    norm_num [npLinspaceInt, npLinspace, truncInt, List.range_succ]
  refine ⟨rfl, h2, ?_⟩
  rw [h2]
  decide

/-- C5 amended: exactly one source determines the grid, with precedence
explicit `grid` over `numSamples` over `step` (for both `Real` and
`Integer`; `numSamples`/`step` count as given only when truthy). -/
theorem grid_source_precedence :
    (∀ (low high : ℤ) (ns : Option Nat) (st : Option ℤ) (xs : List ℤ),
        IntegerDim.gridSetter low high ns st (some xs) = some xs) ∧
    (∀ (low high : ℤ) (ns : Nat) (st : Option ℤ), ns ≠ 0 →
        IntegerDim.gridSetter low high (some ns) st none =
          some (npLinspaceInt low high ns)) ∧
    (∀ (low high st : ℤ), st ≠ 0 →
        IntegerDim.gridSetter low high none (some st) none =
          some (npArangeInt low high st)) ∧
    (∀ (low high : ℚ) (ns : Option Nat) (st : Option ℚ) (xs : List ℚ),
        RealDim.gridSetter low high ns st (some xs) = some xs) ∧
    (∀ (low high : ℚ) (ns : Nat) (st : Option ℚ), ns ≠ 0 →
        RealDim.gridSetter low high (some ns) st none =
          some (npLinspace low high ns)) ∧
    (∀ (low high st : ℚ), st ≠ 0 →
        RealDim.gridSetter low high none (some st) none =
          some (npArange low high st)) := by
  refine ⟨fun _ _ _ _ _ => rfl, ?_, ?_, fun _ _ _ _ _ => rfl, ?_, ?_⟩
  · intro low high ns st h
    simp [IntegerDim.gridSetter, h]
  · intro low high st h
    simp [IntegerDim.gridSetter, h]
  · intro low high ns st h
    simp [RealDim.gridSetter, h]
  · intro low high st h
    simp [RealDim.gridSetter, h]

/-- Witness for the amended C5 at concrete inputs. -/
theorem grid_source_precedence_witness :
    IntegerDim.gridSetter 0 10 (some 3) (some 2) none = some (npLinspaceInt 0 10 3) ∧
    IntegerDim.gridSetter 0 10 none (some 2) none = some (npArangeInt 0 10 2) ∧
    RealDim.gridSetter 0 1 (some 3) (some (1/2)) none = some (npLinspace 0 1 3) ∧
    RealDim.gridSetter 0 1 none (some (1/2)) none = some (npArange 0 1 (1/2)) :=
  ⟨grid_source_precedence.2.1 0 10 3 (some 2) (by decide),
   grid_source_precedence.2.2.1 0 10 2 (by decide),
   grid_source_precedence.2.2.2.2.1 0 1 3 (some (1/2)) (by decide),
   grid_source_precedence.2.2.2.2.2 0 1 (1/2) (by norm_num)⟩

/-- C9 counterexample: for `tpe` with no iteration argument at all,
`num_iterations` does not fail — it substitutes the default
`sys.maxsize = 9223372036854775807` for `max_evals`. -/
theorem tpe_missing_iterations_defaults :
    num_iterations "tpe" [] = .ok 9223372036854775807 := by
  rfl

/-- C9 amended: for `random`, omitting the iteration count
(`num_iterations`/`n_calls`/`n_iter`) fails with a `KeyError` rather than
substituting a default; for `tpe`, no error is raised — the default
`9223372036854775807` is substituted for a missing `max_evals`. -/
theorem num_iterations_required_or_default :
    (∀ args : GpminArgs,
        List.lookup "num_iterations" args = none →
        List.lookup "n_calls" args = none →
        List.lookup "n_iter" args = none →
        num_iterations "random" args = .error "KeyError: n_iter") ∧
    (∀ args : GpminArgs,
        List.lookup "num_iterations" args = none →
        List.lookup "max_evals" args = none →
        num_iterations "tpe" args = .ok 9223372036854775807) := by
  constructor
  · intro args h1 h2 h3
    simp [num_iterations, h1, h2, h3]
  · intro args h1 h2
    simp [num_iterations, h1, h2]

/-- Witness for the amended C9 at a concrete argument dict. -/
theorem num_iterations_required_or_default_witness :
    num_iterations "random" [("random_state", 7)] = .error "KeyError: n_iter" ∧
    num_iterations "tpe" [("random_state", 7)] = .ok 9223372036854775807 :=
  ⟨num_iterations_required_or_default.1 [("random_state", 7)] (by decide)
      (by decide) (by decide),
   num_iterations_required_or_default.2 [("random_state", 7)] (by decide) (by decide)⟩

/-- C10: a `Real` or `Integer` dimension constructed with only `low` and
`high` (no `numSamples`, no `step`, no explicit grid) never assigns the
internal `_grid` attribute, so reading the `grid` property fails with
`AttributeError` (modelled as `none`), even though construction itself
succeeds with the valid bounds. -/
theorem grid_unset_when_only_bounds (low high : ℚ) (hlt : low < high)
    (ilow ihigh : ℤ) (hilt : ilow < ihigh) :
    (RealDim.init counterInit (some low) (some high) none none none
        (some "r")).toOption.map (fun p => p.1._grid) = some none ∧
    (IntegerDim.init counterInit (some ilow) (some ihigh) none none none
        (some "i")).toOption.map (fun p => p.1._grid) = some none := by
  constructor
  · simp only [RealDim.init, if_pos hlt, RealDim.gridSetter]
    rfl
  · simp only [IntegerDim.init, if_pos hilt, IntegerDim.gridSetter]
    rfl

/-! ## Lemmas for the grid- and random-search claims -/

theorem sum_map_const {α : Type} (l : List α) (c : Nat) :
    (l.map (fun _ => c)).sum = l.length * c := by
  induction l with
  | nil => simp
  | cons a t ih => simp [ih, Nat.succ_mul, Nat.add_comm]

theorem gridCombos_length (l : List (String × List ℤ)) :
    (gridCombos l).length = (l.map (fun p => p.2.length)).prod := by
  induction l with
  | nil => simp [gridCombos]
  | cons p rest ih =>
    obtain ⟨k, vs⟩ := p
    simp only [gridCombos, List.length_flatMap, List.map_map]
    have hconst : (List.length ∘ fun v : ℤ =>
        (gridCombos rest).map (fun tail => (k, v) :: tail)) =
        fun _ : ℤ => (gridCombos rest).length := by
      funext v
      simp
    rw [hconst, sum_map_const, ih]
    simp [Nat.mul_comm]

theorem gridCombos_nodup (l : List (String × List ℤ))
    (h : ∀ p ∈ l, p.2.Nodup) : (gridCombos l).Nodup := by
  induction l with
  | nil => simp [gridCombos]
  | cons p rest ih =>
    obtain ⟨k, vs⟩ := p
    have hvs : vs.Nodup := h (k, vs) (by simp)
    have hrest : (gridCombos rest).Nodup := ih (fun q hq => h q (by simp [hq]))
    simp only [gridCombos]
    rw [List.nodup_flatMap]
    constructor
    · intro v _
      exact hrest.map (fun t1 t2 ht => by injection ht)
    · refine List.Pairwise.imp ?_ hvs
      intro a b hab x hxa hxb
      obtain ⟨t1, _, rfl⟩ := List.mem_map.mp hxa
      obtain ⟨t2, _, heq⟩ := List.mem_map.mp hxb
      injection heq with h1 _
      injection h1 with _ h3
      exact hab h3.symm

theorem eval_sequence_length (obj : List (String × ℤ) → ℤ)
    (params : List (List (String × ℤ))) :
    (eval_sequence obj params).length = params.length := by
  simp [eval_sequence]

theorem eval_sequence_map_snd (obj : List (String × ℤ) → ℤ)
    (params : List (List (String × ℤ))) :
    (eval_sequence obj params).map Prod.snd = params := by
  simp only [eval_sequence, List.map_map]
  have hcomp : (Prod.snd ∘ fun p : Nat × List (String × ℤ) =>
      (toString (obj p.2) ++ "_" ++ toString p.1, p.2)) = Prod.snd := rfl
  rw [hcomp, List.enum_map_snd]

theorem sortItems_three (ga gb gc : List ℤ) :
    sortItems [("a", ga), ("b", gb), ("c", gc)] = [("a", ga), ("b", gb), ("c", gc)] := by
  simp +decide [sortItems, insortKey]

theorem swrAux_length (n : Nat) :
    ∀ (pool : List Nat) (st : Nat), (swrAux n pool st).length = min n pool.length := by
  induction n with
  | zero => intro pool st; simp [swrAux]
  | succ n ih =>
    intro pool st
    cases pool with
    | nil => simp [swrAux]
    | cons p ps =>
      have hlt : st % (p :: ps).length < (p :: ps).length :=
        Nat.mod_lt _ (by simp)
      simp only [swrAux, List.length_cons, ih, List.length_eraseIdx]
      simp only [List.length_cons] at hlt
      rw [if_pos hlt]
      omega

theorem ParameterSampler_length (space : List (String × List ℤ)) (n_iter seed : Nat) :
    (ParameterSampler space n_iter seed).length =
      min n_iter (parameterGrid space).length := by
  simp only [ParameterSampler, List.length_map, sampleWithoutReplacement,
    swrAux_length, List.length_range]
  omega

/-- Witness for C10 at concrete bounds. -/
theorem grid_unset_when_only_bounds_witness :
    (RealDim.init counterInit (some 0) (some 1) none none none
        (some "r")).toOption.map (fun p => p.1._grid) = some none ∧
    (IntegerDim.init counterInit (some 0) (some 5) none none none
        (some "i")).toOption.map (fun p => p.1._grid) = some none :=
  grid_unset_when_only_bounds 0 1 (by norm_num) 0 5 (by norm_num)

/-- C7: for a space of three dimensions with duplicate-free grids of sizes
`a, b, c`, grid search evaluates the objective exactly `a*b*c` times — one
trial per element of the full Cartesian product of the grids, with no
duplicate combinations. -/
theorem grid_search_full_cartesian (ga gb gc : List ℤ)
    (obj : List (String × ℤ) → ℤ)
    (ha : ga.Nodup) (hb : gb.Nodup) (hc : gc.Nodup) :
    (grid_search [("a", ga), ("b", gb), ("c", gc)] obj).length =
      ga.length * gb.length * gc.length ∧
    (grid_search [("a", ga), ("b", gb), ("c", gc)] obj).map Prod.snd =
      parameterGrid [("a", ga), ("b", gb), ("c", gc)] ∧
    (parameterGrid [("a", ga), ("b", gb), ("c", gc)]).Nodup ∧
    (∀ pa, pa ∈ parameterGrid [("a", ga), ("b", gb), ("c", gc)] ↔
      ∃ a ∈ ga, ∃ b ∈ gb, ∃ c ∈ gc, pa = [("a", a), ("b", b), ("c", c)]) := by
  have hpg : parameterGrid [("a", ga), ("b", gb), ("c", gc)] =
      gridCombos [("a", ga), ("b", gb), ("c", gc)] := by
    rw [parameterGrid, sortItems_three]
  refine ⟨?_, ?_, ?_, ?_⟩
  · rw [grid_search, eval_sequence_length, hpg, gridCombos_length]
    simp [Nat.mul_assoc]
  · rw [grid_search, eval_sequence_map_snd]
  · rw [hpg]
    refine gridCombos_nodup _ ?_
    intro p hp
    simp only [List.mem_cons, List.not_mem_nil, or_false] at hp
    rcases hp with rfl | rfl | rfl
    · exact ha
    · exact hb
    · exact hc
  · intro pa
    rw [hpg]
    simp only [gridCombos, List.mem_flatMap, List.mem_map, List.mem_singleton,
      exists_eq_left]
    constructor
    · rintro ⟨a, haa, t1, ⟨b, hbb, t2, ⟨c, hcc, rfl⟩, rfl⟩, rfl⟩
      exact ⟨a, haa, b, hbb, c, hcc, rfl⟩
    · rintro ⟨a, haa, b, hbb, c, hcc, rfl⟩
      exact ⟨a, haa, _, ⟨b, hbb, _, ⟨c, hcc, rfl⟩, rfl⟩, rfl⟩

/-- Witness for C7 on grids `[1,2]`, `[3]`, `[4,5]`. -/
theorem grid_search_full_cartesian_witness :
    (grid_search [("a", [1, 2]), ("b", [3]), ("c", [4, 5])] objZero).length = 4 ∧
    (parameterGrid [("a", [1, 2]), ("b", [3]), ("c", [4, 5])]).Nodup :=
  ⟨(grid_search_full_cartesian [1, 2] [3] [4, 5] objZero (by decide) (by decide)
      (by decide)).1,
   (grid_search_full_cartesian [1, 2] [3] [4, 5] objZero (by decide) (by decide)
      (by decide)).2.2.1⟩

/-- C8 counterexample: `numIterations = 2` on a space whose full grid has
only one combination yields a single trial, not two —
`ParameterSampler` clamps `n_iter` to the grid size. -/
theorem random_search_clamped_counterexample :
    random_search [("a", [5])] [("n_iter", 2)] objZero =
      .ok [("0_0", [("a", 5)])] ∧
    (random_search [("a", [5])] [("n_iter", 2)] objZero).toOption.map
      List.length = some 1 := by
  exact ⟨rfl, rfl⟩

/-- C8 amended: random search with an iteration count `N` evaluates exactly
`min N gridSize` trials — exactly `N` whenever `N` does not exceed the total
grid size — and the sequence of trial parameter assignments is independent
of the objective (it is a pure function of the space and the seed, so two
runs with the same seed produce identical parameter sequences). -/
theorem random_search_count_and_determinism (space : List (String × List ℤ))
    (args : GpminArgs) (obj1 obj2 : List (String × ℤ) → ℤ) (N : Nat)
    (hN : num_iterations "random" args = .ok N) :
    ∃ r1 r2, random_search space args obj1 = .ok r1 ∧
      random_search space args obj2 = .ok r2 ∧
      r1.length = min N (parameterGrid space).length ∧
      r1.map Prod.snd = r2.map Prod.snd ∧
      (N ≤ (parameterGrid space).length → r1.length = N) := by
  simp only [random_search, hN]
  refine ⟨_, _, rfl, rfl, ?_, ?_, ?_⟩
  · rw [eval_sequence_length, ParameterSampler_length]
  · rw [eval_sequence_map_snd, eval_sequence_map_snd]
  · intro h
    rw [eval_sequence_length, ParameterSampler_length]
    omega

/-- Witness for the amended C8: `N = 2` on a three-point grid. -/
theorem random_search_count_and_determinism_witness :
    ∃ r1 r2, random_search [("a", [1, 2, 3])] [("n_iter", 2)] objZero = .ok r1 ∧
      random_search [("a", [1, 2, 3])] [("n_iter", 2)] objTwoTrials = .ok r2 ∧
      r1.length = min 2 (parameterGrid [("a", [1, 2, 3])]).length ∧
      r1.map Prod.snd = r2.map Prod.snd ∧
      (2 ≤ (parameterGrid [("a", [1, 2, 3])]).length → r1.length = 2) :=
  random_search_count_and_determinism [("a", [1, 2, 3])] [("n_iter", 2)]
    objZero objTwoTrials 2 rfl

end AI4Water
